import Mathlib

/-!
Shallow embedding of the PID-Tag-Puller repository.

Embedded modules:
* src/src/tag_extractor/patterns.py  — exclusion rules and the shape heuristic
  (is_excluded, is_likely_tag).  The seven acceptance regexes themselves are an
  external regex-engine concern; the per-call scan result (the concatenation of
  pattern.findall(text) over COMPILED_PATTERNS in dictionary order) is abstracted
  as a parameter matchesOf : String → List String.
* src/src/tag_extractor/extractor.py — TagExtractor: extract_all_tags,
  _filter_short_pump_tags, get_tag_counts, get_tags_by_type, get_summary.
* src/src/pdf_processor/extractor.py — PDFExtractor: construction, extract_text,
  _extract_text_standard, _extract_text_ocr, extract_text_by_page, get_page_count.
  A parsed document is modelled as its list of pages; each page carries the
  pdfplumber native text (Python None modelled as "", which `if text:` treats
  identically) and the two tesseract outputs (--psm 6 and --psm 11) that the code
  would obtain when the engine is available.

Python str semantics are modelled for ASCII text (the tag domain): str.isupper,
str.split, substring membership, and code-point lexicographic ordering for
sorted(...) all agree with the List Char implementations below on ASCII input.
-/

/-- Lexicographic code-point comparison of character lists: models Python's
string ≤ used by sorted(...). -/
def leChars : List Char → List Char → Bool
  | [], _ => true
  | _ :: _, [] => false
  | a :: as, b :: bs => if a < b then true else if b < a then false else leChars as bs

/-- Python string comparison a ≤ b by code points. -/
def strLe (a b : String) : Bool := leChars a.data b.data

/-- Insert a string into an already sorted list (auxiliary to pySorted). -/
def insertSorted (a : String) : List String → List String
  | [] => [a]
  | b :: t => if strLe a b then a :: b :: t else b :: insertSorted a t

/-- Model of Python sorted(...) on lists of strings: insertion sort by code-point
order.  Python's sorted is a stable sort producing the ordered permutation; on
strings, elements comparing equal are identical, so any sorted permutation is the
same list and insertion sort is observationally exact. -/
def pySorted : List String → List String
  | [] => []
  | a :: t => insertSorted a (pySorted t)

/-- Does l start with the prefix given first?  (models str.startswith on the
character level). -/
def startsList : List Char → List Char → Bool
  | [], _ => true
  | _ :: _, [] => false
  | p :: ps, c :: cs => p == c && startsList ps cs

/-- Python s.startswith(pre). -/
def strStartsWith (s pre : String) : Bool := startsList pre.data s.data

/-- Is pat a contiguous substring of l?  (models Python's `pat in s`). -/
def subAux (pat : List Char) : List Char → Bool
  | [] => pat.isEmpty
  | c :: t => startsList pat (c :: t) || subAux pat t

/-- Python substring containment `pat in s`. -/
def containsSub (s pat : String) : Bool := subAux pat.data s.data

/-- Python s.split("-") on the character level: splitting on every dash, keeping
empty segments, one more segment than there are dashes. -/
def splitDash : List Char → List (List Char)
  | [] => [[]]
  | c :: t =>
    match splitDash t with
    | [] => [[]]
    | h :: rest => if c = '-' then [] :: h :: rest else (c :: h) :: rest

/-- Number of segments of Python tag.split("-"). -/
def splitDashCount (s : String) : Nat := (splitDash s.data).length

/-- Count of uppercase characters, sum(1 for c in text if c.isupper()) (ASCII). -/
def upperCount (s : String) : Nat := s.data.countP (fun c => c.isUpper)

/-- Python str.isupper (ASCII): at least one cased character and no lowercase
character. -/
def pyIsUpper (s : String) : Bool :=
  s.data.any (fun c => c.isUpper) && s.data.all (fun c => !c.isLower)

/-!  Exclusion regexes of patterns.py, lines 22-33.  Each entry is anchored
^...$ and is applied with re.match, i.e. a whole-string match except that `$`
also accepts a single trailing newline; matchDollar supplies that `$`
semantics uniformly. -/

/-- All characters are ASCII digits and there is at least one: regex \d+ . -/
def allDigits1 (l : List Char) : Bool := !l.isEmpty && l.all Char.isDigit

/-- Core of the drawing-number rule ST\d{4} (e.g. ST0008). -/
def matchExclST (l : List Char) : Bool :=
  match l with
  | 'S' :: 'T' :: ds => ds.length == 4 && ds.all Char.isDigit
  | _ => false

/-- P followed by exactly four digits (shared head of the sheet-number rules). -/
def matchPd4 (l : List Char) : Bool :=
  match l with
  | 'P' :: ds => ds.length == 4 && ds.all Char.isDigit
  | _ => false

/-- Sheet-number rule P\d{4}-\d+-\d+ (e.g. P1011-1-3). -/
def matchExclP3 (l : List Char) : Bool :=
  match splitDash l with
  | [a, b, c] => matchPd4 a && allDigits1 b && allDigits1 c
  | _ => false

/-- Sheet-number rule P\d{4}-\d+ (e.g. P1011-1). -/
def matchExclP2 (l : List Char) : Bool :=
  match splitDash l with
  | [a, b] => matchPd4 a && allDigits1 b
  | _ => false

/-- Note-reference rule NOTE \d+ . -/
def matchExclNote (l : List Char) : Bool :=
  match l with
  | 'N' :: 'O' :: 'T' :: 'E' :: ' ' :: ds => allDigits1 ds
  | _ => false

/-- Grid-coordinate rule [A-G] (a single letter A..G). -/
def matchExclGridLetter (l : List Char) : Bool :=
  match l with
  | [c] => decide ('A' ≤ c) && decide (c ≤ 'G')
  | _ => false

/-- Grid-coordinate rule \d{1,2} (one or two digits). -/
def matchExclGridNum (l : List Char) : Bool :=
  (l.length == 1 || l.length == 2) && l.all Char.isDigit

/-- Legend-item literals EXISTING|PROPOSED|WATER CANNON|WATER HYDRANT. -/
def matchExclLegend (l : List Char) : Bool :=
  l == "EXISTING".data || l == "PROPOSED".data ||
  l == "WATER CANNON".data || l == "WATER HYDRANT".data

/-- Title-block literals SHEET No.|DRAWING STATUS|REVISION. -/
def matchExclTitle1 (l : List Char) : Bool :=
  l == "SHEET No.".data || l == "DRAWING STATUS".data || l == "REVISION".data

/-- Title-block literals COPYRIGHT|APPROVAL|DRAWN BY|CHECKED BY. -/
def matchExclTitle2 (l : List Char) : Bool :=
  l == "COPYRIGHT".data || l == "APPROVAL".data ||
  l == "DRAWN BY".data || l == "CHECKED BY".data

/-- Apply an anchored core pattern with Python `$` semantics: `$` matches at the
end of the string or just before one trailing newline. -/
def matchDollar (core : List Char → Bool) (l : List Char) : Bool :=
  core l || (l.getLast? == some '\n' && core l.dropLast)

/-- Function is_excluded of patterns.py, lines 52-54: does the text match any of
the nine compiled exclusion patterns (each tried with re.match). -/
def is_excluded (s : String) : Bool :=
  matchDollar matchExclST s.data || matchDollar matchExclP3 s.data ||
  matchDollar matchExclP2 s.data || matchDollar matchExclNote s.data ||
  matchDollar matchExclGridLetter s.data || matchDollar matchExclGridNum s.data ||
  matchDollar matchExclLegend s.data || matchDollar matchExclTitle1 s.data ||
  matchDollar matchExclTitle2 s.data

/-- Function is_likely_tag of patterns.py, lines 57-70: reject empty or
over-long text, then accept when the text is uppercase (str.isupper) or more
than half of its characters are uppercase.  The float comparison
count/len > 0.5 is exact for len ≤ 50, hence the integer form 2*count > len. -/
def is_likely_tag (s : String) : Bool :=
  if s.data.length = 0 ∨ s.data.length > 50 then false
  else pyIsUpper s || decide (2 * upperCount s > s.data.length)

/-- The acceptance test applied to every raw regex match in
extract_all_tags, extractor.py line 34: is_likely_tag(match) and not
is_excluded(match). -/
def acceptFilter (m : String) : Bool := is_likely_tag m && !(is_excluded m)

/-- Per-instance state of class TagExtractor (extractor.py lines 12-16):
the input text, the ordered list of accepted occurrences self.tags, and the
Counter self.tag_counts modelled as an insertion-ordered association list. -/
structure TagExtractor where
  text : String
  tags : List String
  tag_counts : List (String × Nat)
deriving DecidableEq

/-- TagExtractor.__init__(text): empty tag list and empty Counter. -/
def TagExtractor.init (text : String) : TagExtractor := ⟨text, [], []⟩

/-- Counter increment self.tag_counts[k] += 1 on the association-list model:
bump an existing key in place, or append a new key with count 1. -/
def incrCount : List (String × Nat) → String → List (String × Nat)
  | [], k => [(k, 1)]
  | (k', v) :: rest, k =>
    if k' = k then (k', v + 1) :: rest else (k', v) :: incrCount rest k

/-- Value of a key in the association-list counter (0 when absent, as
Counter lookup reports). -/
def lookupCount : List (String × Nat) → String → Nat
  | [], _ => 0
  | (k', v) :: rest, k => if k' = k then v else lookupCount rest k

/-- Method TagExtractor._filter_short_pump_tags (extractor.py lines 50-59):
the short-pump exclusion pass, which returns its input unchanged. -/
def TagExtractor.filter_short_pump_tags (tags : List String) : List String := tags

/-- Method TagExtractor.extract_all_tags (extractor.py lines 18-48).
matchesOf abstracts the regex scan: the concatenation of
pattern.findall(self.text) over COMPILED_PATTERNS in dictionary order.
self.tags is rebuilt from scratch while self.tag_counts is incremented for every
accepted occurrence on top of its previous contents; returns the sorted unique
tags (deduplicate) or the sorted full list, together with the updated state. -/
def TagExtractor.extract_all_tags (matchesOf : String → List String)
    (ex : TagExtractor) (deduplicate : Bool) : List String × TagExtractor :=
  let accepted := (matchesOf ex.text).filter acceptFilter
  let counts := accepted.foldl incrCount ex.tag_counts
  let tags := TagExtractor.filter_short_pump_tags accepted
  (if deduplicate then pySorted tags.dedup else pySorted tags,
   ⟨ex.text, tags, counts⟩)

/-- Method TagExtractor.get_tag_counts (extractor.py lines 61-63):
dict(self.tag_counts). -/
def TagExtractor.get_tag_counts (ex : TagExtractor) : List (String × Nat) :=
  ex.tag_counts

/-- The five category keys of get_tags_by_type. -/
inductive TagCategory
  | pumps
  | valves
  | instruments
  | equipment
  | other
deriving DecidableEq

/-- The if/elif chain of get_tags_by_type (extractor.py lines 80-90), first
match wins: pumps when the tag starts with STORM_P or starts with P with length
exactly 5; else valves when it starts with VLV; else instruments when it
contains a dash and tag.split("-") has at least 3 segments; else equipment when
it contains TRAP or TANK; else other. -/
def categorize (tag : String) : TagCategory :=
  if strStartsWith tag "STORM_P" || (strStartsWith tag "P" && tag.data.length == 5) then
    TagCategory.pumps
  else if strStartsWith tag "VLV" then
    TagCategory.valves
  else if tag.data.contains '-' && decide (3 ≤ splitDashCount tag) then
    TagCategory.instruments
  else if containsSub tag "TRAP" || containsSub tag "TANK" then
    TagCategory.equipment
  else
    TagCategory.other

/-- Method TagExtractor.get_tags_by_type (extractor.py lines 65-96): iterate
over set(self.tags), append each unique tag to the list of the first predicate
it satisfies, then sort each category list. -/
def TagExtractor.get_tags_by_type (ex : TagExtractor) (c : TagCategory) :
    List String :=
  pySorted ((ex.tags.dedup).filter (fun t => decide (categorize t = c)))

/-- The seven summary statistics returned by get_summary. -/
structure Summary where
  total_unique : Nat
  total_instances : Nat
  pumps : Nat
  valves : Nat
  instruments : Nat
  equipment : Nat
  other : Nat
deriving DecidableEq

/-- Method TagExtractor.get_summary (extractor.py lines 98-115):
len(set(self.tags)), len(self.tags), and the five category-list lengths. -/
def TagExtractor.get_summary (ex : TagExtractor) : Summary :=
  ⟨ex.tags.dedup.length,
   ex.tags.length,
   (ex.get_tags_by_type TagCategory.pumps).length,
   (ex.get_tags_by_type TagCategory.valves).length,
   (ex.get_tags_by_type TagCategory.instruments).length,
   (ex.get_tags_by_type TagCategory.equipment).length,
   (ex.get_tags_by_type TagCategory.other).length⟩

/-!  PDF side: src/src/pdf_processor/extractor.py. -/

/-- One parsed page: the pdfplumber native text (page.extract_text(), Python
None modelled as "", which every `if text:` use treats identically), and the
two tesseract outputs the code would obtain for the rendered page when the
engine is available: image_to_string with --psm 6 and with --psm 11. -/
structure PDFPage where
  nativeText : String
  ocrPsm6 : String
  ocrPsm11 : String
deriving DecidableEq

/-- A successfully parsed document: its ordered pages (both pdfplumber and
PyMuPDF report the same page sequence of a well-formed file). -/
structure PDFDoc where
  pages : List PDFPage
deriving DecidableEq

/-- Errors surfaced by the embedded PDFExtractor: pytesseract's
TesseractNotFoundError when the recognition engine is missing (the spec's
ExtractionUnavailable), and the construction-time and parse-time failures the
spec names DocumentNotFound and DocumentCorrupt. -/
inductive PdfError
  | tesseractNotFound
  | documentNotFound
  | documentCorrupt
deriving DecidableEq

/-- Method PDFExtractor._extract_text_standard (lines 49-60): join the
non-empty page texts with newlines. -/
def extract_text_standard (doc : PDFDoc) : String :=
  String.intercalate "\n"
    ((doc.pages.map (fun p => p.nativeText)).filter (fun t => t != ""))

/-- The whole-document OCR text when the engine runs: per page the --psm 6 and
--psm 11 outputs joined by a newline (always non-empty, so every page
contributes), then all pages joined by newlines. -/
def ocrCombinedText (doc : PDFDoc) : String :=
  String.intercalate "\n"
    (doc.pages.map (fun p => p.ocrPsm6 ++ "\n" ++ p.ocrPsm11))

/-- Method PDFExtractor._extract_text_ocr (lines 61-97).  tesseractAvailable
says whether pytesseract can invoke the engine; with no pages no OCR call is
made and the empty join is returned even without the engine, otherwise a
missing engine raises TesseractNotFoundError out of the first call. -/
def extract_text_ocr (tesseractAvailable : Bool) (doc : PDFDoc) :
    Except PdfError String :=
  if doc.pages.isEmpty then Except.ok ""
  else if tesseractAvailable then Except.ok (ocrCombinedText doc)
  else Except.error PdfError.tesseractNotFound

/-- Method PDFExtractor.extract_text (lines 21-47): native text when it reaches
min_text_threshold; else, with use_ocr, the native text, a newline and the OCR
text (an engine error propagates); else the native text unchanged. -/
def extract_text (tesseractAvailable : Bool) (doc : PDFDoc) (use_ocr : Bool)
    (min_text_threshold : Nat) : Except PdfError String :=
  let text_extracted := extract_text_standard doc
  if text_extracted.length ≥ min_text_threshold then Except.ok text_extracted
  else if use_ocr then
    match extract_text_ocr tesseractAvailable doc with
    | Except.ok ocr_text => Except.ok (text_extracted ++ "\n" ++ ocr_text)
    | Except.error e => Except.error e
  else Except.ok text_extracted

/-- Method PDFExtractor._extract_text_by_page_standard (lines 113-122):
one entry per pdfplumber page, text if text else "". -/
def extract_text_by_page_standard (doc : PDFDoc) : List String :=
  doc.pages.map (fun p => p.nativeText)

/-- Method PDFExtractor._extract_text_by_page_ocr (lines 124-142): one entry
per page, only the --psm 11 (sparse text) output; a missing engine raises out
of the first pytesseract call, and with no pages no call is made. -/
def extract_text_by_page_ocr (tesseractAvailable : Bool) (doc : PDFDoc) :
    Except PdfError (List String) :=
  if doc.pages.isEmpty then Except.ok []
  else if tesseractAvailable then
    Except.ok (doc.pages.map (fun p => p.ocrPsm11))
  else Except.error PdfError.tesseractNotFound

/-- Method PDFExtractor.extract_text_by_page (lines 99-111). -/
def extract_text_by_page (tesseractAvailable : Bool) (doc : PDFDoc)
    (use_ocr : Bool) : Except PdfError (List String) :=
  if use_ocr then extract_text_by_page_ocr tesseractAvailable doc
  else Except.ok (extract_text_by_page_standard doc)

/-- Method PDFExtractor.get_page_count (lines 145-148). -/
def get_page_count (doc : PDFDoc) : Nat := doc.pages.length

/-- The parts of the environment PDFExtractor construction consults: whether a
path resolves, and whether the file at a path parses as a supported document
(the latter only ever checked by the extraction-time pdfplumber/fitz open). -/
structure FileSystem where
  pathExists : String → Bool
  parsesAsPdf : String → Bool

/-- Method PDFExtractor.__init__ (lines 15-19): store the path and raise
FileNotFoundError (the spec's DocumentNotFound) when it does not exist.  No
handle is opened and no parsing is attempted here. -/
def PDFExtractor.init (fs : FileSystem) (path : String) :
    Except PdfError String :=
  if fs.pathExists path then Except.ok path
  else Except.error PdfError.documentNotFound

/-!  Helper lemmas about the model of sorted(...), the counter, and the
category lists. -/

theorem mem_insertSorted {x a : String} {l : List String} :
    x ∈ insertSorted a l ↔ x = a ∨ x ∈ l := by
  induction l with
  | nil => simp [insertSorted]
  | cons b t ih =>
    unfold insertSorted
    by_cases h : strLe a b = true
    · rw [if_pos h]
      simp
    · rw [if_neg h]
      simp only [List.mem_cons, ih]
      tauto

theorem length_insertSorted (a : String) (l : List String) :
    (insertSorted a l).length = l.length + 1 := by
  induction l with
  | nil => rfl
  | cons b t ih =>
    unfold insertSorted
    by_cases h : strLe a b = true <;> simp [h, ih]

theorem mem_pySorted {x : String} {l : List String} : x ∈ pySorted l ↔ x ∈ l := by
  induction l with
  | nil => simp [pySorted]
  | cons a t ih => simp [pySorted, mem_insertSorted, ih]

theorem length_pySorted (l : List String) : (pySorted l).length = l.length := by
  induction l with
  | nil => rfl
  | cons a t ih => simp [pySorted, length_insertSorted, ih]

theorem lookupCount_incrCount (counts : List (String × Nat)) (k' k : String) :
    lookupCount (incrCount counts k') k =
      lookupCount counts k + (if k' = k then 1 else 0) := by
  induction counts with
  | nil => by_cases h : k' = k <;> simp [incrCount, lookupCount, h]
  | cons p rest ih =>
    obtain ⟨k₀, v⟩ := p
    show lookupCount (if k₀ = k' then (k₀, v + 1) :: rest
          else (k₀, v) :: incrCount rest k') k = _
    by_cases h0 : k₀ = k'
    · rw [if_pos h0]
      show (if k₀ = k then v + 1 else lookupCount rest k) =
        (if k₀ = k then v else lookupCount rest k) + if k' = k then 1 else 0
      by_cases hk : k₀ = k
      · have hkk : k' = k := h0.symm.trans hk
        rw [if_pos hk, if_pos hk, if_pos hkk]
      · have hkk : ¬ k' = k := fun he => hk (h0.trans he)
        rw [if_neg hk, if_neg hk, if_neg hkk, Nat.add_zero]
    · rw [if_neg h0]
      show (if k₀ = k then v else lookupCount (incrCount rest k') k) =
        (if k₀ = k then v else lookupCount rest k) + if k' = k then 1 else 0
      by_cases hk : k₀ = k
      · have hkk : ¬ k' = k := fun he => h0 (hk.trans he.symm)
        rw [if_pos hk, if_pos hk, if_neg hkk, Nat.add_zero]
      · rw [if_neg hk, if_neg hk, ih]

theorem lookupCount_foldl (l : List String) (counts : List (String × Nat))
    (k : String) :
    lookupCount (l.foldl incrCount counts) k = lookupCount counts k + l.count k := by
  induction l generalizing counts with
  | nil => simp [lookupCount]
  | cons a t ih =>
    rw [List.foldl_cons, ih, lookupCount_incrCount, List.count_cons]
    by_cases h : a = k
    · simp only [beq_iff_eq, if_pos h]
      omega
    · simp only [beq_iff_eq, if_neg h]
      omega

theorem mem_get_tags_by_type {ex : TagExtractor} {c : TagCategory} {t : String} :
    t ∈ ex.get_tags_by_type c ↔ t ∈ ex.tags.dedup ∧ categorize t = c := by
  unfold TagExtractor.get_tags_by_type
  rw [mem_pySorted, List.mem_filter]
  simp

theorem length_filter_categorize (l : List String) :
    (l.filter fun t => decide (categorize t = TagCategory.pumps)).length
      + (l.filter fun t => decide (categorize t = TagCategory.valves)).length
      + (l.filter fun t => decide (categorize t = TagCategory.instruments)).length
      + (l.filter fun t => decide (categorize t = TagCategory.equipment)).length
      + (l.filter fun t => decide (categorize t = TagCategory.other)).length
      = l.length := by
  induction l with
  | nil => rfl
  | cons a t ih =>
    cases hc : categorize a <;>
      simp only [List.filter_cons, hc, decide_True, decide_False,
        reduceCtorEq, decide_eq_true_eq, if_true, if_false, List.length_cons] <;>
      omega

theorem summary_total_unique_eq (ex : TagExtractor) :
    ex.get_summary.total_unique =
      ex.get_summary.pumps + ex.get_summary.valves + ex.get_summary.instruments
        + ex.get_summary.equipment + ex.get_summary.other := by
  show ex.tags.dedup.length = _
  simp only [TagExtractor.get_summary, TagExtractor.get_tags_by_type,
    length_pySorted]
  exact (length_filter_categorize ex.tags.dedup).symm

theorem extract_all_tags_snd (matchesOf : String → List String)
    (ex : TagExtractor) (dedup : Bool) :
    (TagExtractor.extract_all_tags matchesOf ex dedup).2 =
      ⟨ex.text, (matchesOf ex.text).filter acceptFilter,
       ((matchesOf ex.text).filter acceptFilter).foldl incrCount ex.tag_counts⟩ :=
  rfl

theorem extract_all_tags_fst (matchesOf : String → List String)
    (ex : TagExtractor) (dedup : Bool) :
    (TagExtractor.extract_all_tags matchesOf ex dedup).1 =
      if dedup then pySorted ((matchesOf ex.text).filter acceptFilter).dedup
      else pySorted ((matchesOf ex.text).filter acceptFilter) :=
  rfl

/-!  Claim theorems. -/

/-- Claim C8 (confirmed): the short-pump-specific exclusion pass applied after
pattern scanning is the identity function — for every list of already-accepted
tags, _filter_short_pump_tags returns its input unchanged, adding no filtering
beyond the exclusion rules already applied. -/
theorem claim_C8 (tags : List String) :
    TagExtractor.filter_short_pump_tags tags = tags := rfl

/-- Claim C10 (confirmed): on a freshly constructed TagExtractor, before any
extract_all_tags call, the query operations succeed rather than fail:
get_tag_counts is the empty mapping, get_tags_by_type has five empty category
lists, and get_summary has all seven counts equal to zero. -/
theorem claim_C10 (t : String) :
    (TagExtractor.init t).get_tag_counts = []
      ∧ (∀ c, (TagExtractor.init t).get_tags_by_type c = [])
      ∧ (TagExtractor.init t).get_summary = ⟨0, 0, 0, 0, 0, 0, 0⟩ :=
  ⟨rfl, fun _ => rfl, rfl⟩

/-- Claim C6 is refuted as stated: a filesystem on which the path resolves but
the file does not parse as a PDF still yields a successful construction —
PDFExtractor.__init__ performs no parsing, so it cannot fail with
DocumentCorrupt. -/
theorem claim_C6_counterexample :
    PDFExtractor.init (FileSystem.mk (fun _ => true) (fun _ => false))
        "corrupt.pdf" = Except.ok "corrupt.pdf"
      ∧ PDFExtractor.init (FileSystem.mk (fun _ => true) (fun _ => false))
          "corrupt.pdf" ≠ Except.error PdfError.documentCorrupt
      ∧ (FileSystem.mk (fun _ => true) (fun _ => false)).pathExists
          "corrupt.pdf" = true
      ∧ (FileSystem.mk (fun _ => true) (fun _ => false)).parsesAsPdf
          "corrupt.pdf" = false :=
  ⟨rfl, fun h => Except.noConfusion h, rfl, rfl⟩

/-- Claim C6 (corrected): construction validates only that the document path
resolves, failing fatally with DocumentNotFound (FileNotFoundError) when it
does not, with no extraction attempted and no partial result; construction
never parses the document, so its only outcomes are success or
DocumentNotFound and DocumentCorrupt is never raised there. -/
theorem claim_C6 (fs : FileSystem) (path : String) :
    (fs.pathExists path = true → PDFExtractor.init fs path = Except.ok path)
      ∧ (fs.pathExists path = false →
          PDFExtractor.init fs path = Except.error PdfError.documentNotFound)
      ∧ (PDFExtractor.init fs path = Except.ok path ∨
         PDFExtractor.init fs path = Except.error PdfError.documentNotFound) := by
  unfold PDFExtractor.init
  by_cases h : fs.pathExists path = true
  · rw [if_pos h]
    exact ⟨fun _ => rfl, fun hf => absurd h (by rw [hf]; exact Bool.false_ne_true),
      Or.inl rfl⟩
  · rw [if_neg h]
    exact ⟨fun ht => absurd ht h, fun _ => rfl, Or.inr rfl⟩

/-- Witness for claim C6 at concrete filesystems: an existing path constructs
successfully and a missing path fails with the not-found error. -/
theorem claim_C6_witness :
    PDFExtractor.init (FileSystem.mk (fun _ => true) (fun _ => true))
        "a.pdf" = Except.ok "a.pdf"
      ∧ PDFExtractor.init (FileSystem.mk (fun _ => false) (fun _ => true))
          "missing.pdf" = Except.error PdfError.documentNotFound :=
  ⟨(claim_C6 (FileSystem.mk (fun _ => true) (fun _ => true)) "a.pdf").1 rfl,
   (claim_C6 (FileSystem.mk (fun _ => false) (fun _ => true)) "missing.pdf").2.1 rfl⟩

/-- Claim C7 is refuted as stated: with the recognition engine unavailable, a
one-page document whose native text "A" is non-empty but below the threshold
makes extract_text propagate the engine error; it does not degrade to
returning the native text. -/
theorem claim_C7_counterexample :
    extract_text false (PDFDoc.mk [PDFPage.mk "A" "B6" "B11"]) true 200 =
        Except.error PdfError.tesseractNotFound
      ∧ extract_text false (PDFDoc.mk [PDFPage.mk "A" "B6" "B11"]) true 200 ≠
          Except.ok (extract_text_standard (PDFDoc.mk [PDFPage.mk "A" "B6" "B11"]))
      ∧ extract_text_standard (PDFDoc.mk [PDFPage.mk "A" "B6" "B11"]) = "A" :=
  ⟨rfl, fun h => Except.noConfusion h, rfl⟩

/-- Claim C7 (corrected): when the recognition engine is unavailable at call
time and OCR is actually attempted (use_ocr true, native text below the
threshold, at least one page), extract_text raises the engine's
TesseractNotFoundError; the exception propagates and no text — native or
otherwise — is returned: there is no native-only fallback. -/
theorem claim_C7 (doc : PDFDoc) (thr : Nat) (h1 : doc.pages ≠ [])
    (h2 : (extract_text_standard doc).length < thr) :
    extract_text false doc true thr = Except.error PdfError.tesseractNotFound := by
  have hne : ¬ (extract_text_standard doc).length ≥ thr := by omega
  have hempty : doc.pages.isEmpty = false := by
    cases hp : doc.pages with
    | nil => exact absurd hp h1
    | cons a l => rfl
  simp only [extract_text, extract_text_ocr, hempty]
  rw [if_neg hne]
  simp

/-- Witness for claim C7 at a concrete one-page document with short native
text and the engine unavailable. -/
theorem claim_C7_witness :
    (PDFDoc.mk [PDFPage.mk "A" "B6" "B11"]).pages ≠ []
      ∧ (extract_text_standard (PDFDoc.mk [PDFPage.mk "A" "B6" "B11"])).length < 200
      ∧ extract_text false (PDFDoc.mk [PDFPage.mk "A" "B6" "B11"]) true 200 =
          Except.error PdfError.tesseractNotFound :=
  ⟨by decide, by decide,
   claim_C7 (PDFDoc.mk [PDFPage.mk "A" "B6" "B11"]) 200 (by decide) (by decide)⟩

/-- Claim C3 (confirmed): extract_text returns the concatenated native text
whenever its length is at least min_text_threshold; when the native text is
below the threshold and use_ocr is true (and the engine runs), it returns the
native text, a newline and the OCR output — never the OCR output alone — and
when use_ocr is false it returns the native text as-is. -/
theorem claim_C3 (avail : Bool) (doc : PDFDoc) (use_ocr : Bool) (thr : Nat) :
    ((extract_text_standard doc).length ≥ thr →
        extract_text avail doc use_ocr thr = Except.ok (extract_text_standard doc))
      ∧ ((extract_text_standard doc).length < thr → use_ocr = true → avail = true →
          extract_text avail doc use_ocr thr =
            Except.ok (extract_text_standard doc ++ "\n" ++ ocrCombinedText doc))
      ∧ ((extract_text_standard doc).length < thr → use_ocr = false →
          extract_text avail doc use_ocr thr =
            Except.ok (extract_text_standard doc)) := by
  refine ⟨fun h => ?_, fun h1 h2 h3 => ?_, fun h1 h2 => ?_⟩
  · simp only [extract_text]
    rw [if_pos h]
  · subst h2; subst h3
    simp only [extract_text, extract_text_ocr]
    rw [if_neg (by omega : ¬ (extract_text_standard doc).length ≥ thr)]
    cases hp : doc.pages with
    | nil =>
      have hdoc : doc = PDFDoc.mk [] := by cases doc; simp_all
      subst hdoc
      simp only [ocrCombinedText, List.map_nil]
      rw [show String.intercalate "\n" ([] : List String) = "" from rfl,
        String.append_empty]
      simp
    | cons a l =>
      have hempty : doc.pages.isEmpty = false := by rw [hp]; rfl
      simp [hempty]
  · subst h2
    simp only [extract_text]
    rw [if_neg (by omega : ¬ (extract_text_standard doc).length ≥ thr)]
    simp

/-- Witness for claim C3 at a concrete one-page document: the cheap path at
threshold 0, the OCR-combining path at threshold 200 with the engine present,
and the native-only path with use_ocr false. -/
theorem claim_C3_witness :
    extract_text true (PDFDoc.mk [PDFPage.mk "A" "B6" "B11"]) true 0 =
        Except.ok (extract_text_standard (PDFDoc.mk [PDFPage.mk "A" "B6" "B11"]))
      ∧ extract_text true (PDFDoc.mk [PDFPage.mk "A" "B6" "B11"]) true 200 =
          Except.ok (extract_text_standard (PDFDoc.mk [PDFPage.mk "A" "B6" "B11"])
            ++ "\n" ++ ocrCombinedText (PDFDoc.mk [PDFPage.mk "A" "B6" "B11"]))
      ∧ extract_text true (PDFDoc.mk [PDFPage.mk "A" "B6" "B11"]) false 200 =
          Except.ok (extract_text_standard (PDFDoc.mk [PDFPage.mk "A" "B6" "B11"])) :=
  ⟨(claim_C3 true (PDFDoc.mk [PDFPage.mk "A" "B6" "B11"]) true 0).1 (by decide),
   (claim_C3 true (PDFDoc.mk [PDFPage.mk "A" "B6" "B11"]) true 200).2.1
     (by decide) rfl rfl,
   (claim_C3 true (PDFDoc.mk [PDFPage.mk "A" "B6" "B11"]) false 200).2.2
     (by decide) rfl⟩

/-- Claim C9 (confirmed): for every document and either value of use_ocr (with
the recognition engine present when the OCR variant is requested),
extract_text_by_page returns an ordered sequence of per-page strings whose
length equals get_page_count(); the entries are never concatenated and, when
OCR is requested, each page contributes only the sparse-text (--psm 11)
recognition output, never combined with native text. -/
theorem claim_C9 (avail : Bool) (doc : PDFDoc) (use_ocr : Bool)
    (h : use_ocr = true → avail = true) :
    extract_text_by_page avail doc use_ocr =
        Except.ok (if use_ocr then doc.pages.map (fun p => p.ocrPsm11)
                   else doc.pages.map (fun p => p.nativeText))
      ∧ (if use_ocr then doc.pages.map (fun p => p.ocrPsm11)
         else doc.pages.map (fun p => p.nativeText)).length = get_page_count doc := by
  cases use_ocr with
  | false =>
    refine ⟨rfl, ?_⟩
    simp [get_page_count]
  | true =>
    have ha : avail = true := h rfl
    subst ha
    constructor
    · show extract_text_by_page_ocr true doc = _
      unfold extract_text_by_page_ocr
      cases hp : doc.pages with
      | nil =>
        have hdoc : doc = PDFDoc.mk [] := by cases doc; simp_all
        subst hdoc
        rfl
      | cons a l =>
        have hempty : doc.pages.isEmpty = false := by rw [hp]; rfl
        simp [hempty]
    · simp [get_page_count]

/-- Witness for claim C9 at a concrete one-page document, OCR requested and the
engine present. -/
theorem claim_C9_witness :
    extract_text_by_page true (PDFDoc.mk [PDFPage.mk "N" "S6" "S11"]) true =
        Except.ok ((PDFDoc.mk [PDFPage.mk "N" "S6" "S11"]).pages.map
          (fun p => p.ocrPsm11))
      ∧ ((PDFDoc.mk [PDFPage.mk "N" "S6" "S11"]).pages.map
          (fun p => p.ocrPsm11)).length =
        get_page_count (PDFDoc.mk [PDFPage.mk "N" "S6" "S11"]) :=
  claim_C9 true (PDFDoc.mk [PDFPage.mk "N" "S6" "S11"]) true (fun _ => rfl)

/-- Claim C1 is refuted as stated: viewing a text whose pattern scan accepts
VLV1001 twice (the valve and generic-tag patterns both match it, as the
repository's own pattern test exercises), a second extract_all_tags call on the
same instance doubles the frequency mapping — self.tag_counts is never reset,
only self.tags is. -/
theorem claim_C1_counterexample :
    (TagExtractor.extract_all_tags (fun _ => ["VLV1001", "VLV1001"])
        ((TagExtractor.extract_all_tags (fun _ => ["VLV1001", "VLV1001"])
          (TagExtractor.init "VLV1001") true).2) true).2.get_tag_counts ≠
      (TagExtractor.extract_all_tags (fun _ => ["VLV1001", "VLV1001"])
        (TagExtractor.init "VLV1001") true).2.get_tag_counts
      ∧ (TagExtractor.extract_all_tags (fun _ => ["VLV1001", "VLV1001"])
          ((TagExtractor.extract_all_tags (fun _ => ["VLV1001", "VLV1001"])
            (TagExtractor.init "VLV1001") true).2) true).2.get_tag_counts =
        [("VLV1001", 4)]
      ∧ (TagExtractor.extract_all_tags (fun _ => ["VLV1001", "VLV1001"])
          (TagExtractor.init "VLV1001") true).2.get_tag_counts =
        [("VLV1001", 2)] :=
  ⟨by decide, by decide, by decide⟩

/-- Claim C1 (corrected): the ordered list of accepted occurrences self.tags is
reset at the start of every extract_all_tags call, so a second identical call
returns the same tag list and leaves the same self.tags, the same
get_tags_by_type lists and the same get_summary record; the frequency mapping
self.tag_counts however is NOT reset — it accumulates across calls, the second
call adding each accepted occurrence's per-call multiplicity on top of the
first call's counts. -/
theorem claim_C1 (matchesOf : String → List String) (ex : TagExtractor)
    (dedup : Bool) :
    (TagExtractor.extract_all_tags matchesOf
        ((TagExtractor.extract_all_tags matchesOf ex dedup).2) dedup).1 =
      (TagExtractor.extract_all_tags matchesOf ex dedup).1
      ∧ (TagExtractor.extract_all_tags matchesOf
          ((TagExtractor.extract_all_tags matchesOf ex dedup).2) dedup).2.tags =
        (TagExtractor.extract_all_tags matchesOf ex dedup).2.tags
      ∧ (TagExtractor.extract_all_tags matchesOf
          ((TagExtractor.extract_all_tags matchesOf ex dedup).2) dedup).2.get_summary =
        (TagExtractor.extract_all_tags matchesOf ex dedup).2.get_summary
      ∧ (∀ c, (TagExtractor.extract_all_tags matchesOf
            ((TagExtractor.extract_all_tags matchesOf ex dedup).2) dedup).2.get_tags_by_type c =
          (TagExtractor.extract_all_tags matchesOf ex dedup).2.get_tags_by_type c)
      ∧ (∀ k, lookupCount (TagExtractor.extract_all_tags matchesOf
            ((TagExtractor.extract_all_tags matchesOf ex dedup).2) dedup).2.get_tag_counts k =
          lookupCount (TagExtractor.extract_all_tags matchesOf ex dedup).2.get_tag_counts k
            + ((matchesOf ex.text).filter acceptFilter).count k) := by
  refine ⟨rfl, rfl, rfl, fun c => rfl, fun k => ?_⟩
  show lookupCount (((matchesOf ex.text).filter acceptFilter).foldl incrCount
        (((matchesOf ex.text).filter acceptFilter).foldl incrCount ex.tag_counts)) k =
      lookupCount
        (((matchesOf ex.text).filter acceptFilter).foldl incrCount ex.tag_counts) k
      + ((matchesOf ex.text).filter acceptFilter).count k
  rw [lookupCount_foldl, lookupCount_foldl]

/-- Claim C2 (confirmed): after any single extract_all_tags invocation the five
category lists of get_tags_by_type partition the set of unique accepted tags
exactly — no tag in two lists, every unique accepted tag in the list of its
category, and every listed tag a unique accepted tag — and the summary
satisfies total_unique = pumps+valves+instruments+equipment+other while
total_instances is the length of the full non-deduplicated
accepted-occurrence list. -/
theorem claim_C2 (matchesOf : String → List String) (ex : TagExtractor)
    (dedup : Bool) :
    (∀ t c₁ c₂,
        t ∈ (TagExtractor.extract_all_tags matchesOf ex dedup).2.get_tags_by_type c₁ →
        t ∈ (TagExtractor.extract_all_tags matchesOf ex dedup).2.get_tags_by_type c₂ →
        c₁ = c₂)
      ∧ (∀ t, t ∈ (TagExtractor.extract_all_tags matchesOf ex dedup).2.tags.dedup →
          t ∈ (TagExtractor.extract_all_tags matchesOf ex dedup).2.get_tags_by_type
            (categorize t))
      ∧ (∀ t c,
          t ∈ (TagExtractor.extract_all_tags matchesOf ex dedup).2.get_tags_by_type c →
          t ∈ (TagExtractor.extract_all_tags matchesOf ex dedup).2.tags.dedup)
      ∧ (TagExtractor.extract_all_tags matchesOf ex dedup).2.get_summary.total_unique =
          (TagExtractor.extract_all_tags matchesOf ex dedup).2.get_summary.pumps
            + (TagExtractor.extract_all_tags matchesOf ex dedup).2.get_summary.valves
            + (TagExtractor.extract_all_tags matchesOf ex dedup).2.get_summary.instruments
            + (TagExtractor.extract_all_tags matchesOf ex dedup).2.get_summary.equipment
            + (TagExtractor.extract_all_tags matchesOf ex dedup).2.get_summary.other
      ∧ (TagExtractor.extract_all_tags matchesOf ex dedup).2.get_summary.total_instances =
          ((matchesOf ex.text).filter acceptFilter).length := by
  refine ⟨?_, ?_, ?_, summary_total_unique_eq _, rfl⟩
  · intro t c₁ c₂ h1 h2
    exact ((mem_get_tags_by_type.mp h1).2).symm.trans (mem_get_tags_by_type.mp h2).2
  · intro t ht
    exact mem_get_tags_by_type.mpr ⟨ht, rfl⟩
  · intro t c h
    exact (mem_get_tags_by_type.mp h).1

/-- Witness for claim C2 at a concrete run whose scan accepts VLV1001: the
unique accepted tag lies in the category list the chain assigns it. -/
theorem claim_C2_witness :
    ("VLV1001" : String) ∈ (TagExtractor.extract_all_tags (fun _ => ["VLV1001"])
        (TagExtractor.init "VLV1001") true).2.tags.dedup
      ∧ "VLV1001" ∈ (TagExtractor.extract_all_tags (fun _ => ["VLV1001"])
          (TagExtractor.init "VLV1001") true).2.get_tags_by_type
            (categorize "VLV1001") :=
  ⟨by decide,
   (claim_C2 (fun _ => ["VLV1001"]) (TagExtractor.init "VLV1001") true).2.1
     "VLV1001" (by decide)⟩

/-- The acceptance test, spelled out for non-empty candidates: length at most
50, fully uppercase or strictly more than half uppercase characters, and not
matching any exclusion rule. -/
theorem acceptFilter_iff {m : String} (hm : m ≠ "") :
    acceptFilter m = true ↔
      (m.data.length ≤ 50
          ∧ (pyIsUpper m = true ∨ 2 * upperCount m > m.data.length))
        ∧ is_excluded m = false := by
  have h0 : ¬ m.data.length = 0 := by
    intro h
    apply hm
    cases m with
    | mk d =>
      cases d with
      | nil => rfl
      | cons c t => simp at h
  unfold acceptFilter is_likely_tag
  by_cases h50 : m.data.length ≤ 50
  · rw [if_neg (by omega : ¬ (m.data.length = 0 ∨ m.data.length > 50))]
    rw [Bool.and_eq_true, Bool.or_eq_true, Bool.not_eq_true', decide_eq_true_eq]
    exact ⟨fun ⟨a, b⟩ => ⟨⟨h50, a⟩, b⟩, fun ⟨⟨_, a⟩, b⟩ => ⟨a, b⟩⟩
  · rw [if_pos (by omega : m.data.length = 0 ∨ m.data.length > 50)]
    constructor
    · intro h
      exact absurd h (by simp)
    · rintro ⟨⟨h, _⟩, _⟩
      exact absurd h h50

/-- Claim C4 (confirmed): a raw pattern match appears in the extraction output
if and only if it came from the scan, passes the shape heuristic (length at
most 50 and fully uppercase or more than half uppercase characters), and does
not whole-string match any exclusion rule; in particular the exclusion-rule
examples ST0008, NOTE 1 and P1011-1 are excluded and so can never appear. -/
theorem claim_C4 (matchesOf : String → List String) (ex : TagExtractor)
    (dedup : Bool) (m : String) (hm : m ≠ "") :
    (m ∈ (TagExtractor.extract_all_tags matchesOf ex dedup).1 ↔
        m ∈ matchesOf ex.text
          ∧ (m.data.length ≤ 50
              ∧ (pyIsUpper m = true ∨ 2 * upperCount m > m.data.length))
          ∧ is_excluded m = false)
      ∧ is_excluded "ST0008" = true
      ∧ is_excluded "NOTE 1" = true
      ∧ is_excluded "P1011-1" = true := by
  refine ⟨?_, by decide, by decide, by decide⟩
  cases dedup with
  | false =>
    rw [extract_all_tags_fst, if_neg Bool.false_ne_true, mem_pySorted,
      List.mem_filter, acceptFilter_iff hm]
  | true =>
    rw [extract_all_tags_fst, if_pos rfl, mem_pySorted, List.mem_dedup,
      List.mem_filter, acceptFilter_iff hm]

/-- Witness for claim C4 at the concrete match VLV1001 accepted from a scan of
the text VLV1001. -/
theorem claim_C4_witness :
    ("VLV1001" : String) ≠ ""
      ∧ ((("VLV1001" : String) ∈ (TagExtractor.extract_all_tags
            (fun _ => ["VLV1001"]) (TagExtractor.init "VLV1001") true).1 ↔
          ("VLV1001" : String) ∈ ["VLV1001"]
            ∧ (("VLV1001" : String).data.length ≤ 50
                ∧ (pyIsUpper "VLV1001" = true ∨
                   2 * upperCount "VLV1001" > ("VLV1001" : String).data.length))
            ∧ is_excluded "VLV1001" = false)
          ∧ is_excluded "ST0008" = true
          ∧ is_excluded "NOTE 1" = true
          ∧ is_excluded "P1011-1" = true) :=
  ⟨by decide,
   claim_C4 (fun _ => ["VLV1001"]) (TagExtractor.init "VLV1001") true "VLV1001"
     (by decide)⟩

/-- Rule 1 of the category chain: starts with STORM_P, or starts with P with
length exactly 5. -/
def pumpCond (t : String) : Prop :=
  strStartsWith t "STORM_P" = true ∨
    (strStartsWith t "P" = true ∧ t.data.length = 5)

/-- Rule 2 of the category chain: starts with VLV. -/
def valveCond (t : String) : Prop := strStartsWith t "VLV" = true

/-- Rule 3 of the category chain: contains a dash and splitting on the dash
yields at least 3 segments. -/
def instrumentCond (t : String) : Prop :=
  t.data.contains '-' = true ∧ 3 ≤ splitDashCount t

/-- Rule 4 of the category chain: contains TRAP or TANK. -/
def equipmentCond (t : String) : Prop :=
  containsSub t "TRAP" = true ∨ containsSub t "TANK" = true

/-- The category function equals the fixed-priority chain with first match
winning. -/
theorem categorize_cases (t : String) :
    (categorize t = TagCategory.pumps ↔ pumpCond t)
      ∧ (categorize t = TagCategory.valves ↔ ¬ pumpCond t ∧ valveCond t)
      ∧ (categorize t = TagCategory.instruments ↔
          ¬ pumpCond t ∧ ¬ valveCond t ∧ instrumentCond t)
      ∧ (categorize t = TagCategory.equipment ↔
          ¬ pumpCond t ∧ ¬ valveCond t ∧ ¬ instrumentCond t ∧ equipmentCond t)
      ∧ (categorize t = TagCategory.other ↔
          ¬ pumpCond t ∧ ¬ valveCond t ∧ ¬ instrumentCond t ∧ ¬ equipmentCond t) := by
  have hp : (strStartsWith t "STORM_P"
      || (strStartsWith t "P" && t.data.length == 5)) = true ↔ pumpCond t := by
    simp [pumpCond, Bool.or_eq_true, Bool.and_eq_true, beq_iff_eq]
  have hi : (t.data.contains '-' && decide (3 ≤ splitDashCount t)) = true ↔
      instrumentCond t := by
    simp [instrumentCond, Bool.and_eq_true, decide_eq_true_eq]
  have he : (containsSub t "TRAP" || containsSub t "TANK") = true ↔
      equipmentCond t := by
    simp [equipmentCond, Bool.or_eq_true]
  unfold categorize
  by_cases c1 : (strStartsWith t "STORM_P"
      || (strStartsWith t "P" && t.data.length == 5)) = true
  · rw [if_pos c1]
    rw [hp] at c1
    exact ⟨⟨fun _ => c1, fun _ => rfl⟩,
      ⟨fun h => absurd h (by decide), fun h => absurd c1 h.1⟩,
      ⟨fun h => absurd h (by decide), fun h => absurd c1 h.1⟩,
      ⟨fun h => absurd h (by decide), fun h => absurd c1 h.1⟩,
      ⟨fun h => absurd h (by decide), fun h => absurd c1 h.1⟩⟩
  · rw [if_neg c1]
    have hnp : ¬ pumpCond t := fun h => c1 (hp.mpr h)
    by_cases c2 : strStartsWith t "VLV" = true
    · rw [if_pos c2]
      exact ⟨⟨fun h => absurd h (by decide), fun h => absurd h hnp⟩,
        ⟨fun _ => ⟨hnp, c2⟩, fun _ => rfl⟩,
        ⟨fun h => absurd h (by decide), fun h => absurd c2 (by exact fun hc => h.2.1 hc)⟩,
        ⟨fun h => absurd h (by decide), fun h => absurd c2 (by exact fun hc => h.2.1 hc)⟩,
        ⟨fun h => absurd h (by decide), fun h => absurd c2 (by exact fun hc => h.2.1 hc)⟩⟩
    · rw [if_neg c2]
      have hnv : ¬ valveCond t := c2
      by_cases c3 : (t.data.contains '-' && decide (3 ≤ splitDashCount t)) = true
      · rw [if_pos c3]
        have hii : instrumentCond t := hi.mp c3
        exact ⟨⟨fun h => absurd h (by decide), fun h => absurd h hnp⟩,
          ⟨fun h => absurd h (by decide), fun h => absurd h.2 hnv⟩,
          ⟨fun _ => ⟨hnp, hnv, hii⟩, fun _ => rfl⟩,
          ⟨fun h => absurd h (by decide), fun h => absurd hii h.2.2.1⟩,
          ⟨fun h => absurd h (by decide), fun h => absurd hii h.2.2.1⟩⟩
      · rw [if_neg c3]
        have hni : ¬ instrumentCond t := fun h => c3 (hi.mpr h)
        by_cases c4 : (containsSub t "TRAP" || containsSub t "TANK") = true
        · rw [if_pos c4]
          have hee : equipmentCond t := he.mp c4
          exact ⟨⟨fun h => absurd h (by decide), fun h => absurd h hnp⟩,
            ⟨fun h => absurd h (by decide), fun h => absurd h.2 hnv⟩,
            ⟨fun h => absurd h (by decide), fun h => absurd h.2.2 hni⟩,
            ⟨fun _ => ⟨hnp, hnv, hni, hee⟩, fun _ => rfl⟩,
            ⟨fun h => absurd h (by decide), fun h => absurd hee h.2.2.2⟩⟩
        · rw [if_neg c4]
          have hnee : ¬ equipmentCond t := fun h => c4 (he.mpr h)
          exact ⟨⟨fun h => absurd h (by decide), fun h => absurd h hnp⟩,
            ⟨fun h => absurd h (by decide), fun h => absurd h.2 hnv⟩,
            ⟨fun h => absurd h (by decide), fun h => absurd h.2.2 hni⟩,
            ⟨fun h => absurd h (by decide), fun h => absurd h.2.2.2 hnee⟩,
            ⟨fun _ => ⟨hnp, hnv, hni, hnee⟩, fun _ => rfl⟩⟩

/-- Claim C5 (confirmed): every unique accepted tag is assigned exactly one
category by the fixed-priority chain with first match winning — it sits in the
pumps list exactly when rule 1 holds, in the valves list exactly when rule 1
fails and rule 2 holds, and so on — and concretely the hyphenated tag
QD-TRAP-1101, which satisfies both the instrument rule and the equipment rule,
is classified Instrument, never Equipment. -/
theorem claim_C5 (ex : TagExtractor) (t : String) (ht : t ∈ ex.tags.dedup) :
    (t ∈ ex.get_tags_by_type TagCategory.pumps ↔ pumpCond t)
      ∧ (t ∈ ex.get_tags_by_type TagCategory.valves ↔ ¬ pumpCond t ∧ valveCond t)
      ∧ (t ∈ ex.get_tags_by_type TagCategory.instruments ↔
          ¬ pumpCond t ∧ ¬ valveCond t ∧ instrumentCond t)
      ∧ (t ∈ ex.get_tags_by_type TagCategory.equipment ↔
          ¬ pumpCond t ∧ ¬ valveCond t ∧ ¬ instrumentCond t ∧ equipmentCond t)
      ∧ (t ∈ ex.get_tags_by_type TagCategory.other ↔
          ¬ pumpCond t ∧ ¬ valveCond t ∧ ¬ instrumentCond t ∧ ¬ equipmentCond t)
      ∧ categorize "QD-TRAP-1101" = TagCategory.instruments
      ∧ containsSub "QD-TRAP-1101" "TRAP" = true := by
  have base : ∀ c, t ∈ ex.get_tags_by_type c ↔ categorize t = c := by
    intro c
    rw [mem_get_tags_by_type]
    exact ⟨fun h => h.2, fun h => ⟨ht, h⟩⟩
  obtain ⟨h1, h2, h3, h4, h5⟩ := categorize_cases t
  exact ⟨(base _).trans h1, (base _).trans h2, (base _).trans h3,
    (base _).trans h4, (base _).trans h5, by decide, by decide⟩

/-- Witness for claim C5 at a concrete state holding the unique tag VLV1001. -/
theorem claim_C5_witness :
    ("VLV1001" : String) ∈ (TagExtractor.mk "" ["VLV1001"] []).tags.dedup
      ∧ ((("VLV1001" : String) ∈ (TagExtractor.mk "" ["VLV1001"] []).get_tags_by_type
            TagCategory.pumps ↔ pumpCond "VLV1001")
          ∧ (("VLV1001" : String) ∈ (TagExtractor.mk "" ["VLV1001"] []).get_tags_by_type
              TagCategory.valves ↔ ¬ pumpCond "VLV1001" ∧ valveCond "VLV1001")
          ∧ (("VLV1001" : String) ∈ (TagExtractor.mk "" ["VLV1001"] []).get_tags_by_type
              TagCategory.instruments ↔
                ¬ pumpCond "VLV1001" ∧ ¬ valveCond "VLV1001" ∧ instrumentCond "VLV1001")
          ∧ (("VLV1001" : String) ∈ (TagExtractor.mk "" ["VLV1001"] []).get_tags_by_type
              TagCategory.equipment ↔
                ¬ pumpCond "VLV1001" ∧ ¬ valveCond "VLV1001"
                  ∧ ¬ instrumentCond "VLV1001" ∧ equipmentCond "VLV1001")
          ∧ (("VLV1001" : String) ∈ (TagExtractor.mk "" ["VLV1001"] []).get_tags_by_type
              TagCategory.other ↔
                ¬ pumpCond "VLV1001" ∧ ¬ valveCond "VLV1001"
                  ∧ ¬ instrumentCond "VLV1001" ∧ ¬ equipmentCond "VLV1001")
          ∧ categorize "QD-TRAP-1101" = TagCategory.instruments
          ∧ containsSub "QD-TRAP-1101" "TRAP" = true) :=
  ⟨by decide, claim_C5 (TagExtractor.mk "" ["VLV1001"] []) "VLV1001" (by decide)⟩
